import Mathlib

/-!
Shallow embedding of `large_page.c` (large-page code remapping engine).

Machine addresses (`uintptr_t`) are modelled as `Nat` with explicit
reduction modulo `2^64` where C arithmetic may wrap.  Fallible system
calls are modelled by Boolean outcome parameters supplied by the caller
(one per call site), so that every control path of the C code is a path
of the Lean function.
-/

/-- The `map_status` enumeration, in the order fixed by the
`map_status_text` table of `MapStatusStr` (large_page.c:395-453). -/
inductive map_status where
  | map_ok
  | map_failed_to_open_thp_file
  | map_failed_to_stat_exe
  | map_failed_to_open_exe
  | map_failed_to_map_exe_see_errno
  | map_failed_to_find_text_section
  | map_failed_to_unmap_exe_see_errno
  | map_failed_to_close_exe_see_errno
  | map_invalid_regex
  | map_invalid_region_address
  | map_malformed_thp_file
  | map_null_regex
  | map_region_not_found
  | map_region_too_small
  | map_see_errno
  | map_see_errno_madvise_tmem_failed
  | map_see_errno_madvise_tmem_munmap_nmem_failed
  | map_see_errno_madvise_tmem_munmaps_failed
  | map_see_errno_madvise_tmem_munmap_tmem_failed
  | map_see_errno_mmap_tmem_failed
  | map_see_errno_mmap_tmem_munmap_nmem_failed
  | map_see_errno_mprotect_failed
  | map_see_errno_mprotect_munmap_nmem_failed
  | map_see_errno_mprotect_munmaps_failed
  | map_see_errno_mprotect_munmap_tmem_failed
  | map_see_errno_munmap_nmem_failed
  | map_unsupported_platform
deriving DecidableEq

open map_status

/-- Numeric value of a `map_status` enumerator (C enums number the
constants 0, 1, 2, ... in declaration order). -/
def map_status.code : map_status → Nat
  | map_ok => 0
  | map_failed_to_open_thp_file => 1
  | map_failed_to_stat_exe => 2
  | map_failed_to_open_exe => 3
  | map_failed_to_map_exe_see_errno => 4
  | map_failed_to_find_text_section => 5
  | map_failed_to_unmap_exe_see_errno => 6
  | map_failed_to_close_exe_see_errno => 7
  | map_invalid_regex => 8
  | map_invalid_region_address => 9
  | map_malformed_thp_file => 10
  | map_null_regex => 11
  | map_region_not_found => 12
  | map_region_too_small => 13
  | map_see_errno => 14
  | map_see_errno_madvise_tmem_failed => 15
  | map_see_errno_madvise_tmem_munmap_nmem_failed => 16
  | map_see_errno_madvise_tmem_munmaps_failed => 17
  | map_see_errno_madvise_tmem_munmap_tmem_failed => 18
  | map_see_errno_mmap_tmem_failed => 19
  | map_see_errno_mmap_tmem_munmap_nmem_failed => 20
  | map_see_errno_mprotect_failed => 21
  | map_see_errno_mprotect_munmap_nmem_failed => 22
  | map_see_errno_mprotect_munmaps_failed => 23
  | map_see_errno_mprotect_munmap_tmem_failed => 24
  | map_see_errno_munmap_nmem_failed => 25
  | map_unsupported_platform => 26

/-- Inverse of `map_status.code`, modelling the C cast `(map_status)n`
in `FindTextRegion` (`return -status;`, large_page.c:165).  The cast is
only ever applied to values that originate from the enumeration, so the
catch-all case is unreachable there. -/
def codeToStatus : Nat → map_status
  | 0 => map_ok
  | 1 => map_failed_to_open_thp_file
  | 2 => map_failed_to_stat_exe
  | 3 => map_failed_to_open_exe
  | 4 => map_failed_to_map_exe_see_errno
  | 5 => map_failed_to_find_text_section
  | 6 => map_failed_to_unmap_exe_see_errno
  | 7 => map_failed_to_close_exe_see_errno
  | 8 => map_invalid_regex
  | 9 => map_invalid_region_address
  | 10 => map_malformed_thp_file
  | 11 => map_null_regex
  | 12 => map_region_not_found
  | 13 => map_region_too_small
  | 14 => map_see_errno
  | 15 => map_see_errno_madvise_tmem_failed
  | 16 => map_see_errno_madvise_tmem_munmap_nmem_failed
  | 17 => map_see_errno_madvise_tmem_munmaps_failed
  | 18 => map_see_errno_madvise_tmem_munmap_tmem_failed
  | 19 => map_see_errno_mmap_tmem_failed
  | 20 => map_see_errno_mmap_tmem_munmap_nmem_failed
  | 21 => map_see_errno_mprotect_failed
  | 22 => map_see_errno_mprotect_munmap_nmem_failed
  | 23 => map_see_errno_mprotect_munmaps_failed
  | 24 => map_see_errno_mprotect_munmap_tmem_failed
  | 25 => map_see_errno_munmap_nmem_failed
  | _ => map_unsupported_platform

/-- `#define HPS (2L * 1024 * 1024)` (large_page.c:50): the huge-page
size, 2 MiB. -/
def HPS : Nat := 2 * 1024 * 1024

/-- `uintptr_t` values live modulo `2^64`. -/
def UINTPTR_MOD : Nat := 2 ^ 64

/-- `largepage_align_down` (large_page.c:53-55): `addr & ~(HPS - 1)`.
For the power-of-two `HPS` this bit-mask equals clearing the remainder
modulo `HPS`. -/
def largepage_align_down (addr : Nat) : Nat :=
  addr - addr % HPS

/-- `largepage_align_up` (large_page.c:57-59):
`largepage_align_down(addr + HPS - 1)`, with the addition performed in
`uintptr_t` arithmetic (modulo `2^64`). -/
def largepage_align_up (addr : Nat) : Nat :=
  largepage_align_down ((addr + HPS - 1) % UINTPTR_MOD)

/-- `mem_range` (large_page.c:38-41).  The C fields are `from`/`to`;
`from` is a Lean keyword, hence `rfrom`/`rto`.  A null pointer is the
address 0. -/
structure mem_range where
  rfrom : Nat
  rto : Nat
deriving DecidableEq

/-- `AlignRegionToPageBoundary` (large_page.c:299-302): round `from` up
and `to` down to 2 MiB boundaries. -/
def AlignRegionToPageBoundary (r : mem_range) : mem_range :=
  { rfrom := largepage_align_up r.rfrom, rto := largepage_align_down r.rto }

/-- `CheckMemRange` (large_page.c:304-314). -/
def CheckMemRange (r : mem_range) : map_status :=
  if r.rfrom = 0 ∨ r.rto = 0 ∨ r.rfrom > r.rto then
    map_invalid_region_address
  else if r.rto - r.rfrom < HPS then
    map_region_too_small
  else
    map_ok

/-! ## Memory-state model for `MoveRegionToLargePages`

`MoveRegionToLargePages` (large_page.c:222-296) manipulates exactly two
regions: the target range `[r->from, r->to)` (rebuilt in place via a
`MAP_FIXED` mapping called `tmem`, which the kernel places at `r->from`)
and an anonymous scratch region `nmem` at a kernel-chosen address.  Both
are only ever mapped, written, protected and unmapped as a whole, so the
address space is modelled by one record per region.  Contents are byte
lists; the length is the region size. -/

/-- Page protection bits. -/
structure Prot where
  read : Bool
  write : Bool
  exec : Bool
deriving DecidableEq

/-- `PROT_READ | PROT_EXEC`. -/
def prot_rx : Prot := { read := true, write := false, exec := true }

/-- `PROT_READ | PROT_WRITE | PROT_EXEC`. -/
def prot_rwx : Prot := { read := true, write := true, exec := true }

/-- State of the two regions `MoveRegionToLargePages` touches.  The
`target` fields describe the virtual addresses `[r->from, r->to)`; the
`scratch` fields describe the anonymous region `nmem`. -/
structure MoveState where
  targetMapped : Bool
  targetProt : Prot
  targetBytes : List Nat
  scratchMapped : Bool
  scratchBytes : List Nat
deriving DecidableEq

/-- Success/failure outcome of each system call site inside
`MoveRegionToLargePages`; each site executes at most once per run. -/
structure SyscallEnv where
  mmap_nmem_ok : Bool
  mmap_tmem_ok : Bool
  madvise_ok : Bool
  mprotect_ok : Bool
  munmap_tmem_ok : Bool
  munmap_nmem_ok : Bool
deriving DecidableEq

/-- State before the call: the region to be moved is mapped read+execute
(`// We already know the original page is r-xp`, large_page.c:243) and
holds the original code bytes; the scratch region does not exist yet. -/
def initialState (orig : List Nat) : MoveState :=
  { targetMapped := true
    targetProt := prot_rx
    targetBytes := orig
    scratchMapped := false
    scratchBytes := [] }

/-- The second `CLEAN_EXIT_CHECK` macro (large_page.c:264-278), shared
by the `madvise` and `mprotect` failure paths: set `status` to the
step's `_failed` code, `munmap(tmem)` (the target range!), then
`munmap(nmem)`, folding each unmap failure into the compound statuses.
A failed `munmap` leaves the mapping in place. -/
def rollbackBoth (st_failed st_munmap_tmem st_munmap_nmem st_munmaps : map_status)
    (env : SyscallEnv) (s : MoveState) : map_status × MoveState :=
  let s1 := if env.munmap_tmem_ok then { s with targetMapped := false } else s
  let s2 := if env.munmap_nmem_ok then { s1 with scratchMapped := false } else s1
  let status :=
    if env.munmap_tmem_ok then
      (if env.munmap_nmem_ok then st_failed else st_munmap_nmem)
    else
      (if env.munmap_nmem_ok then st_munmap_tmem else st_munmaps)
  (status, s2)

/-- `MoveRegionToLargePages` (large_page.c:222-296), as a function of
the original contents of the target range and the outcome of each
system call.  Step by step:
1. `nmem = mmap(NULL, size, RW, PRIVATE|ANON)`; failure returns
   `map_see_errno` with nothing changed.  `memcpy(nmem, r->from, size)`.
2. `tmem = mmap(start, size, RWX, PRIVATE|ANON|FIXED)`: on success the
   kernel replaces the target mapping with zero-filled pages at the same
   address; on failure the first `CLEAN_EXIT_CHECK` (large_page.c:247-255)
   unmaps `nmem` only.
3. `madvise(tmem, size, MADV_HUGEPAGE)`; failure runs `rollbackBoth`.
4. `memcpy(start, nmem, size)` then `mprotect(start, size, R|X)`;
   `mprotect` failure runs `rollbackBoth`.
5. `munmap(nmem)`; failure yields `map_see_errno_munmap_nmem_failed`. -/
def MoveRegionToLargePages (orig : List Nat) (env : SyscallEnv) :
    map_status × MoveState :=
  let s0 := initialState orig
  if ¬ env.mmap_nmem_ok then
    (map_see_errno, s0)
  else
    let s1 := { s0 with scratchMapped := true, scratchBytes := s0.targetBytes }
    if ¬ env.mmap_tmem_ok then
      if env.munmap_nmem_ok then
        (map_see_errno_mmap_tmem_failed, { s1 with scratchMapped := false })
      else
        (map_see_errno_mmap_tmem_munmap_nmem_failed, s1)
    else
      let s2 := { s1 with targetProt := prot_rwx
                          targetBytes := List.replicate orig.length 0 }
      if ¬ env.madvise_ok then
        rollbackBoth map_see_errno_madvise_tmem_failed
          map_see_errno_madvise_tmem_munmap_tmem_failed
          map_see_errno_madvise_tmem_munmap_nmem_failed
          map_see_errno_madvise_tmem_munmaps_failed env s2
      else
        let s3 := { s2 with targetBytes := s2.scratchBytes }
        if ¬ env.mprotect_ok then
          rollbackBoth map_see_errno_mprotect_failed
            map_see_errno_mprotect_munmap_tmem_failed
            map_see_errno_mprotect_munmap_nmem_failed
            map_see_errno_mprotect_munmaps_failed env s3
        else
          let s4 := { s3 with targetProt := prot_rx }
          if env.munmap_nmem_ok then
            (map_ok, { s4 with scratchMapped := false })
          else
            (map_see_errno_munmap_nmem_failed, s4)

/-- `AlignMoveRegionToLargePages` (large_page.c:318-340).  The remap
step is abstracted as the parameter `move` (its status result); the
`Bool` component records whether `MoveRegionToLargePages` was invoked.
The two `fprintf(stderr, ...)` diagnostics have no effect on the result
and are omitted. -/
def AlignMoveRegionToLargePages (move : mem_range → map_status)
    (r : mem_range) : map_status × Bool :=
  let r2 := AlignRegionToPageBoundary r
  let status := CheckMemRange r2
  if status ≠ map_ok then (status, false)
  else (move r2, true)

/-- `MapStaticCodeRangeToLargePages` (large_page.c:384-387). -/
def MapStaticCodeRangeToLargePages (move : mem_range → map_status)
    (rfrom rto : Nat) : map_status × Bool :=
  AlignMoveRegionToLargePages move { rfrom := rfrom, rto := rto }

/-! ## Transparent-huge-pages capability probe -/

/-- `isspace(3)`, the whitespace class used by `fscanf` when skipping
between `%s` conversions. -/
def c_isspace (c : Char) : Bool :=
  c == ' ' || c == '\t' || c == '\n' || c == '\r' || c == '\x0b' || c == '\x0c'

/-- Splits a character stream into the maximal non-whitespace runs that
successive `%s` conversions of `fscanf` would read (large_page.c:189),
accumulating the current token in reverse. -/
def tokenizeAux : List Char → List Char → List String
  | [], cur => if cur = [] then [] else [String.mk cur.reverse]
  | c :: rest, cur =>
    if c_isspace c then
      if cur = [] then tokenizeAux rest []
      else String.mk cur.reverse :: tokenizeAux rest []
    else
      tokenizeAux rest (c :: cur)

/-- The sequence of whitespace-separated tokens of the capability file's
content. -/
def fscanfTokens (s : String) : List String :=
  tokenizeAux s.data []

/-- `IsTransparentHugePagesEnabled` (large_page.c:175-208), for the
`ENABLE_LARGE_CODE_PAGES` build.  The file content is `none` when
`fopen` fails.  `fscanf(ifs, "%s %s %s", always, madvise, never)`
performs three `%s` conversions: it returns 3 exactly when the content
holds at least three tokens (any further tokens are left unread in the
stream and discarded when the file is closed); with fewer tokens it
returns their count, or `EOF` on empty input — in every such case
`matched != 3` and the file is reported malformed.  The 16-byte C token
buffers are assumed large enough (tokens of 15 bytes or fewer); longer
tokens overflow the buffers in C (undefined behaviour, not modelled).
The result pair is `(status, *result)`. -/
def IsTransparentHugePagesEnabled (content : Option String) :
    map_status × Bool :=
  match content with
  | none => (map_failed_to_open_thp_file, false)
  | some s =>
    match fscanfTokens s with
    | always :: madvise :: never :: _ =>
      let result :=
        if always = "[always]" then true
        else if madvise = "[madvise]" then true
        else if never = "[never]" then false
        else false
      (map_ok, result)
    | _ => (map_malformed_thp_file, false)

/-- `IsLargePagesEnabled` (large_page.c:391-393). -/
def IsLargePagesEnabled (content : Option String) : map_status × Bool :=
  IsTransparentHugePagesEnabled content

/-! ## Region discovery: `FindMapping` / `FindTextRegion`

`dl_iterate_phdr` presents the loaded modules in order; the callback's
nonzero return value stops the iteration and becomes `dl_iterate_phdr`'s
result.  A module entry carries its `dl_phdr_info` data and the outcome
of the file-inspection steps `FindMapping` performs on its backing file
(`stat`/`open`/`mmap`/`munmap`/`close` outcomes and the ELF section
table read from the scratch mapping). -/

/-- The fields of `struct dl_phdr_info` that `FindMapping` reads. -/
structure PhdrInfo where
  dlpi_name : String
  dlpi_addr : Nat
deriving DecidableEq

/-- An ELF section header as `FindMapping` uses it: the name resolved
through the section-name string table, the virtual address and size. -/
structure ElfShdr where
  sh_name : String
  sh_addr : Nat
  sh_size : Nat
deriving DecidableEq

/-- Outcome of inspecting a module's backing file: success of each
system call `FindMapping` performs on it, and the section table of the
mapped image. -/
structure ModuleFile where
  stat_ok : Bool
  open_ok : Bool
  mmap_ok : Bool
  sections : List ElfShdr
  munmap_ok : Bool
  close_ok : Bool
deriving DecidableEq

/-- `find_params.start` / `find_params.end` (large_page.c:43-48); `end`
is a Lean keyword, hence `stop`. -/
structure FindParams where
  start : Nat
  stop : Nat
deriving DecidableEq

/-- Whether `pre` is a prefix of `s`, as character lists. -/
def charPrefixMatches : List Char → List Char → Bool
  | [], _ => true
  | _ :: _, [] => false
  | p :: ps, c :: cs => p == c && charPrefixMatches ps cs

/-- The `.text` search loop (large_page.c:109-113):
`strncmp(strtab + shdr[idx].sh_name, ".text", 5)` compares five
characters of the NUL-terminated name against `".text"`, i.e. matches
any section whose name begins with `".text"`; the loop has no `break`,
so the last matching section wins. -/
def findTextShdr (sections : List ElfShdr) : Option ElfShdr :=
  sections.foldl
    (fun acc s =>
      if charPrefixMatches ".text".data s.sh_name.data then some s else acc)
    none

/-- `FindMapping` (large_page.c:61-145): the `dl_iterate_phdr` callback.
Returns the C `int` result together with the (possibly updated)
`find_params`.  Note the asymmetry at large_page.c:133: the unmap
failure is returned as the positive enumerator value
`map_failed_to_unmap_exe_see_errno`, while every other error path
returns the negated value. -/
def FindMapping (have_regex : Bool) (rmatch : String → Bool)
    (hdr : PhdrInfo) (mf : ModuleFile) (fp : FindParams) :
    Int × FindParams :=
  if (have_regex ∧ rmatch hdr.dlpi_name) ∨ hdr.dlpi_name = "" then
    if ¬ mf.stat_ok then
      (-(Int.ofNat map_failed_to_stat_exe.code), fp)
    else if ¬ mf.open_ok then
      (-(Int.ofNat map_failed_to_open_exe.code), fp)
    else if ¬ mf.mmap_ok then
      (-(Int.ofNat map_failed_to_map_exe_see_errno.code), fp)
    else
      match findTextShdr mf.sections with
      | none => (-(Int.ofNat map_failed_to_find_text_section.code), fp)
      | some shdr_text =>
        let fp2 : FindParams :=
          { start := shdr_text.sh_addr + hdr.dlpi_addr
            stop := shdr_text.sh_addr + hdr.dlpi_addr + shdr_text.sh_size }
        if ¬ mf.munmap_ok then
          (Int.ofNat map_failed_to_unmap_exe_see_errno.code, fp2)
        else if ¬ mf.close_ok then
          (-(Int.ofNat map_failed_to_close_exe_see_errno.code), fp2)
        else
          (1, fp2)
  else
    (-(Int.ofNat map_region_not_found.code), fp)

/-- `dl_iterate_phdr(FindMapping, &find_params)` (large_page.c:162):
calls the callback on each module in load order; a nonzero return stops
the walk and is the result; an exhausted walk returns 0. -/
def dl_iterate_phdr
    (cb : PhdrInfo → ModuleFile → FindParams → Int × FindParams)
    (mods : List (PhdrInfo × ModuleFile)) (fp : FindParams) :
    Int × FindParams :=
  match mods with
  | [] => (0, fp)
  | (hdr, mf) :: rest =>
    let r := cb hdr mf fp
    if r.1 ≠ 0 then r else dl_iterate_phdr cb rest r.2

/-- `FindTextRegion` (large_page.c:148-173).  The compiled regex is
modelled by its matching function (`regcomp` success is assumed; its
failure path returns `map_invalid_regex` before any iteration and is
not needed by the claims).  On a negative iteration status the region
out-parameter is not written, so the caller's zero-initialised range is
returned; otherwise the range found (or `{0, 0}` when the module list
was empty and the status is 0). -/
def FindTextRegion (lib_regex : Option (String → Bool))
    (mods : List (PhdrInfo × ModuleFile)) : map_status × mem_range :=
  let have_regex := lib_regex.isSome
  let rmatch : String → Bool := fun s =>
    match lib_regex with
    | some p => p s
    | none => false
  let res := dl_iterate_phdr (FindMapping have_regex rmatch) mods
    { start := 0, stop := 0 }
  if res.1 < 0 then
    (codeToStatus (-res.1).toNat, { rfrom := 0, rto := 0 })
  else
    (map_ok, { rfrom := res.2.start, rto := res.2.stop })

/-- `MapDSOToLargePages` (large_page.c:367-380), with the remap step
abstracted as in `AlignMoveRegionToLargePages`; the `Bool` component
records whether `MoveRegionToLargePages` was invoked. -/
def MapDSOToLargePages (move : mem_range → map_status)
    (lib_regex : Option (String → Bool))
    (mods : List (PhdrInfo × ModuleFile)) : map_status × Bool :=
  match lib_regex with
  | none => (map_null_regex, false)
  | some _ =>
    let res := FindTextRegion lib_regex mods
    if res.1 ≠ map_ok then (res.1, false)
    else AlignMoveRegionToLargePages move res.2

/-! ## Claims -/

/-- C1, counterexample: with `madvise` failing and every unmap
succeeding, `MoveRegionToLargePages` returns a failure status yet the
rollback `munmap(tmem, size)` (large_page.c:267) has unmapped the target
range itself — the addresses in `[r.from, r.to)` are left unmapped,
refuting the claim that a failed call never leaves them unmapped. -/
theorem C1_madvise_failure_unmaps_target :
    (MoveRegionToLargePages [1, 2, 3]
      { mmap_nmem_ok := true, mmap_tmem_ok := true, madvise_ok := false,
        mprotect_ok := true, munmap_tmem_ok := true, munmap_nmem_ok := true }).1 ≠
      map_ok ∧
    (MoveRegionToLargePages [1, 2, 3]
      { mmap_nmem_ok := true, mmap_tmem_ok := true, madvise_ok := false,
        mprotect_ok := true, munmap_tmem_ok := true, munmap_nmem_ok := true }).2.targetMapped =
      false := by decide

/-- C1, amended: if `MoveRegionToLargePages` fails at the scratch
allocation or at the fixed-address mapping step (statuses
`map_see_errno`, `map_see_errno_mmap_tmem_failed`,
`map_see_errno_mmap_tmem_munmap_nmem_failed`), every address in
`[r.from, r.to)` is still mapped read+execute with the original bytes;
but a failure at the `madvise` step whose rollback `munmap` of the
fixed-address region succeeds leaves the range unmapped. -/
theorem C1_failed_remap_postcondition_amended (orig : List Nat) (env : SyscallEnv) :
    (((MoveRegionToLargePages orig env).1 = map_see_errno ∨
      (MoveRegionToLargePages orig env).1 = map_see_errno_mmap_tmem_failed ∨
      (MoveRegionToLargePages orig env).1 = map_see_errno_mmap_tmem_munmap_nmem_failed) →
      (MoveRegionToLargePages orig env).2.targetMapped = true ∧
      (MoveRegionToLargePages orig env).2.targetProt = prot_rx ∧
      (MoveRegionToLargePages orig env).2.targetBytes = orig) ∧
    (env.mmap_nmem_ok = true → env.mmap_tmem_ok = true → env.madvise_ok = false →
      env.munmap_tmem_ok = true →
      (MoveRegionToLargePages orig env).1 ≠ map_ok ∧
      (MoveRegionToLargePages orig env).2.targetMapped = false) := by
  obtain ⟨a, b, c, d, e, f⟩ := env
  cases a <;> cases b <;> cases c <;> cases d <;> cases e <;> cases f <;>
    simp [MoveRegionToLargePages, rollbackBoth, initialState, prot_rx, prot_rwx]

/-- C1, witness: the amended theorem applied at a failing scratch
allocation (first part) and at a failing `madvise` (second part). -/
theorem C1_failed_remap_postcondition_witness :
    ((MoveRegionToLargePages [1, 2, 3]
        { mmap_nmem_ok := false, mmap_tmem_ok := true, madvise_ok := true,
          mprotect_ok := true, munmap_tmem_ok := true, munmap_nmem_ok := true }).2.targetMapped = true ∧
      (MoveRegionToLargePages [1, 2, 3]
        { mmap_nmem_ok := false, mmap_tmem_ok := true, madvise_ok := true,
          mprotect_ok := true, munmap_tmem_ok := true, munmap_nmem_ok := true }).2.targetProt = prot_rx ∧
      (MoveRegionToLargePages [1, 2, 3]
        { mmap_nmem_ok := false, mmap_tmem_ok := true, madvise_ok := true,
          mprotect_ok := true, munmap_tmem_ok := true, munmap_nmem_ok := true }).2.targetBytes = [1, 2, 3]) ∧
    ((MoveRegionToLargePages [1, 2, 3]
        { mmap_nmem_ok := true, mmap_tmem_ok := true, madvise_ok := false,
          mprotect_ok := true, munmap_tmem_ok := true, munmap_nmem_ok := true }).1 ≠ map_ok ∧
      (MoveRegionToLargePages [1, 2, 3]
        { mmap_nmem_ok := true, mmap_tmem_ok := true, madvise_ok := false,
          mprotect_ok := true, munmap_tmem_ok := true, munmap_nmem_ok := true }).2.targetMapped = false) :=
  ⟨(C1_failed_remap_postcondition_amended [1, 2, 3]
      { mmap_nmem_ok := false, mmap_tmem_ok := true, madvise_ok := true,
        mprotect_ok := true, munmap_tmem_ok := true, munmap_nmem_ok := true }).1
      (Or.inl (by decide)),
   (C1_failed_remap_postcondition_amended [1, 2, 3]
      { mmap_nmem_ok := true, mmap_tmem_ok := true, madvise_ok := false,
        mprotect_ok := true, munmap_tmem_ok := true, munmap_nmem_ok := true }).2
      (by decide) (by decide) (by decide) (by decide)⟩

/-- C2: on a matched module whose scratch `munmap` fails, `FindMapping`
returns the positive enumerator value
`map_failed_to_unmap_exe_see_errno` (large_page.c:133 lacks the minus
sign every sibling error return carries), so `FindTextRegion`'s
`status < 0` test does not fire and the discovery returns `map_ok`: the
cleanup failure IS silently swallowed, contradicting the claim (and the
evident intent of the code, which even preserves `errno` for the caller
on that path). -/
theorem C2_unmap_failure_swallowed :
    (FindMapping false (fun _ => false) { dlpi_name := "", dlpi_addr := 4194304 }
      { stat_ok := true, open_ok := true, mmap_ok := true,
        sections := [{ sh_name := ".text", sh_addr := 4096, sh_size := HPS }],
        munmap_ok := false, close_ok := true } { start := 0, stop := 0 }).1 =
      Int.ofNat map_failed_to_unmap_exe_see_errno.code ∧
    (FindTextRegion none
      [({ dlpi_name := "", dlpi_addr := 4194304 },
        { stat_ok := true, open_ok := true, mmap_ok := true,
          sections := [{ sh_name := ".text", sh_addr := 4096, sh_size := HPS }],
          munmap_ok := false, close_ok := true })]).1 = map_ok ∧
    (FindTextRegion none
      [({ dlpi_name := "", dlpi_addr := 4194304 },
        { stat_ok := true, open_ok := true, mmap_ok := true,
          sections := [{ sh_name := ".text", sh_addr := 4096, sh_size := HPS }],
          munmap_ok := false, close_ok := true })]).1 ≠
      map_failed_to_unmap_exe_see_errno := by decide

/-- C3, counterexample: a pattern matching no path name at all (it
rejects every string) still selects the empty-named main-executable
entry, because the match condition (large_page.c:75-77) accepts any
entry with an empty `dlpi_name` regardless of the regex; the call
returns `map_ok` and the remap is performed, not
`map_region_not_found`. -/
theorem C3_empty_name_matches_any_pattern :
    MapDSOToLargePages (fun _ => map_ok) (some (fun _ => false))
      [({ dlpi_name := "", dlpi_addr := 0 },
        { stat_ok := true, open_ok := true, mmap_ok := true,
          sections := [{ sh_name := ".text", sh_addr := HPS, sh_size := 3 * HPS }],
          munmap_ok := true, close_ok := true })] = (map_ok, true) ∧
    (MapDSOToLargePages (fun _ => map_ok) (some (fun _ => false))
      [({ dlpi_name := "", dlpi_addr := 0 },
        { stat_ok := true, open_ok := true, mmap_ok := true,
          sections := [{ sh_name := ".text", sh_addr := HPS, sh_size := 3 * HPS }],
          munmap_ok := true, close_ok := true })]).1 ≠ map_region_not_found := by decide

/-- C3, amended: if the loaded-module list is nonempty, no entry's path
name matches the pattern, and no entry has an empty path name (an
empty-named entry matches regardless of the pattern), then
`MapDSOToLargePages` returns `map_region_not_found` and performs no
alignment, validation, or remapping. -/
theorem C3_pattern_no_match_amended (move : mem_range → map_status)
    (p : String → Bool) (mods : List (PhdrInfo × ModuleFile))
    (hne : mods ≠ [])
    (h : ∀ m ∈ mods, p m.1.dlpi_name = false ∧ m.1.dlpi_name ≠ "") :
    MapDSOToLargePages move (some p) mods = (map_region_not_found, false) := by
  rcases mods with _ | ⟨⟨hdr, mf⟩, rest⟩
  · exact absurd rfl hne
  · obtain ⟨hp, hn⟩ := h ⟨hdr, mf⟩ (by simp)
    simp [MapDSOToLargePages, FindTextRegion, dl_iterate_phdr, FindMapping,
      hp, hn, codeToStatus, map_status.code]

/-- C3, witness: the amended theorem applied to a one-module list whose
entry has a nonempty path name the pattern rejects. -/
theorem C3_pattern_no_match_witness :
    MapDSOToLargePages (fun _ => map_ok) (some (fun _ => false))
      [({ dlpi_name := "/usr/lib/libfoo.so", dlpi_addr := 0 },
        { stat_ok := true, open_ok := true, mmap_ok := true,
          sections := [{ sh_name := ".text", sh_addr := HPS, sh_size := 3 * HPS }],
          munmap_ok := true, close_ok := true })] = (map_region_not_found, false) :=
  C3_pattern_no_match_amended (fun _ => map_ok) (fun _ => false) _
    (by decide) (by decide)

/-- C4, counterexample: a zero-length range at the 4 KiB-aligned (but
not 2 MiB-aligned) address 0x1000 aligns to an inverted range, so
`MapStaticCodeRangeToLargePages` returns `map_invalid_region_address`,
not the claimed `map_region_too_small`. -/
theorem C4_zero_length_unaligned_not_too_small :
    (MapStaticCodeRangeToLargePages (fun _ => map_ok) 4096 4096).1 =
      map_invalid_region_address ∧
    (MapStaticCodeRangeToLargePages (fun _ => map_ok) 4096 4096).1 ≠
      map_region_too_small := by decide

/-- Helper for C4: the validation status of the aligned degenerate
range `{x, x}`. -/
lemma checkAlignedDegenerate (x : Nat) (hx : x < UINTPTR_MOD) :
    CheckMemRange (AlignRegionToPageBoundary { rfrom := x, rto := x }) =
      if x ≠ 0 ∧ x % HPS = 0 then map_region_too_small
      else map_invalid_region_address := by
  simp only [CheckMemRange, AlignRegionToPageBoundary, largepage_align_up,
    largepage_align_down, HPS, UINTPTR_MOD] at hx ⊢
  split_ifs <;> first | rfl | omega

/-- C4, amended: a zero-length call `MapStaticCodeRangeToLargePages(x, x)`
never reaches `MoveRegionToLargePages`; it returns
`map_region_too_small` only when `x` is a nonzero multiple of the
2 MiB huge-page size, and `map_invalid_region_address` otherwise
(alignment rounds `from` up and `to` down, producing a null bound or an
inverted range first). -/
theorem C4_zero_length_range_amended (move : mem_range → map_status) (x : Nat)
    (hx : x < UINTPTR_MOD) :
    (MapStaticCodeRangeToLargePages move x x).2 = false ∧
    (MapStaticCodeRangeToLargePages move x x).1 =
      (if x ≠ 0 ∧ x % HPS = 0 then map_region_too_small
       else map_invalid_region_address) := by
  have h := checkAlignedDegenerate x hx
  simp only [MapStaticCodeRangeToLargePages, AlignMoveRegionToLargePages, h]
  split_ifs at h ⊢ <;> simp_all

/-- C4, witness: the amended theorem at the huge-page-aligned address
`HPS`, where the zero-length range does report itself too small. -/
theorem C4_zero_length_range_witness :
    (MapStaticCodeRangeToLargePages (fun _ => map_ok) HPS HPS).2 = false ∧
    (MapStaticCodeRangeToLargePages (fun _ => map_ok) HPS HPS).1 =
      map_region_too_small := by
  have h := C4_zero_length_range_amended (fun _ => map_ok) HPS (by decide)
  simpa using h

/-- C5, counterexample: `fscanf` with three `%s` conversions succeeds on
a file holding more than three tokens (the extras are simply ignored),
so `IsLargePagesEnabled` returns `map_ok`, not the claimed malformed
status. -/
theorem C5_four_tokens_not_malformed :
    IsLargePagesEnabled (some "always madvise never extra") = (map_ok, false) ∧
    (IsLargePagesEnabled (some "always madvise never extra")).1 ≠
      map_malformed_thp_file := by decide

/-- C5, amended: `IsLargePagesEnabled` reports the capability file
malformed exactly when its content holds fewer than three
whitespace-separated tokens; with three or more tokens only the first
three are parsed and the status is `map_ok`. -/
theorem C5_malformed_iff_fewer_than_three_tokens (s : String) :
    (IsLargePagesEnabled (some s)).1 = map_malformed_thp_file ↔
      (fscanfTokens s).length < 3 := by
  rcases h : fscanfTokens s with _ | ⟨a, _ | ⟨b, _ | ⟨c, rest⟩⟩⟩ <;>
    simp [IsLargePagesEnabled, IsTransparentHugePagesEnabled, h]

/-- C6: on the canonical three-token policy line with exactly one
bracket-marked mode, `IsLargePagesEnabled` returns `map_ok` with
enabled=true when the active mode is `always` or `madvise` and
enabled=false when it is `never`. -/
theorem C6_policy_line_modes :
    IsLargePagesEnabled (some "[always] madvise never") = (map_ok, true) ∧
    IsLargePagesEnabled (some "always [madvise] never") = (map_ok, true) ∧
    IsLargePagesEnabled (some "always madvise [never]") = (map_ok, false) := by decide

/-- C7: whenever `MoveRegionToLargePages` returns `map_ok`, the target
range is mapped with exactly the original bytes, its protection is
read+execute, and the scratch region has been released. -/
theorem C7_success_postcondition (orig : List Nat) (env : SyscallEnv)
    (h : (MoveRegionToLargePages orig env).1 = map_ok) :
    (MoveRegionToLargePages orig env).2.targetMapped = true ∧
    (MoveRegionToLargePages orig env).2.targetBytes = orig ∧
    (MoveRegionToLargePages orig env).2.targetProt = prot_rx ∧
    (MoveRegionToLargePages orig env).2.scratchMapped = false := by
  obtain ⟨a, b, c, d, e, f⟩ := env
  cases a <;> cases b <;> cases c <;> cases d <;> cases e <;> cases f <;>
    simp_all [MoveRegionToLargePages, rollbackBoth, initialState, prot_rx, prot_rwx]

/-- C7, witness: the success postcondition at a run in which every
system call succeeds. -/
theorem C7_success_postcondition_witness :
    (MoveRegionToLargePages [1, 2, 3]
      { mmap_nmem_ok := true, mmap_tmem_ok := true, madvise_ok := true,
        mprotect_ok := true, munmap_tmem_ok := true, munmap_nmem_ok := true }).2.targetMapped = true ∧
    (MoveRegionToLargePages [1, 2, 3]
      { mmap_nmem_ok := true, mmap_tmem_ok := true, madvise_ok := true,
        mprotect_ok := true, munmap_tmem_ok := true, munmap_nmem_ok := true }).2.targetBytes = [1, 2, 3] ∧
    (MoveRegionToLargePages [1, 2, 3]
      { mmap_nmem_ok := true, mmap_tmem_ok := true, madvise_ok := true,
        mprotect_ok := true, munmap_tmem_ok := true, munmap_nmem_ok := true }).2.targetProt = prot_rx ∧
    (MoveRegionToLargePages [1, 2, 3]
      { mmap_nmem_ok := true, mmap_tmem_ok := true, madvise_ok := true,
        mprotect_ok := true, munmap_tmem_ok := true, munmap_nmem_ok := true }).2.scratchMapped = false :=
  C7_success_postcondition [1, 2, 3]
    { mmap_nmem_ok := true, mmap_tmem_ok := true, madvise_ok := true,
      mprotect_ok := true, munmap_tmem_ok := true, munmap_nmem_ok := true } (by decide)

/-- C8: whenever the aligned range passes `CheckMemRange`, both bounds
are multiples of the 2 MiB huge-page size, `from < to`, and the range
spans at least one huge page; and `AlignMoveRegionToLargePages` invokes
the remap step only when the aligned range passes `CheckMemRange`. -/
theorem C8_validated_range_invariant (move : mem_range → map_status) (r : mem_range) :
    (CheckMemRange (AlignRegionToPageBoundary r) = map_ok →
      (AlignRegionToPageBoundary r).rfrom % HPS = 0 ∧
      (AlignRegionToPageBoundary r).rto % HPS = 0 ∧
      (AlignRegionToPageBoundary r).rfrom < (AlignRegionToPageBoundary r).rto ∧
      HPS ≤ (AlignRegionToPageBoundary r).rto - (AlignRegionToPageBoundary r).rfrom) ∧
    ((AlignMoveRegionToLargePages move r).2 = true →
      CheckMemRange (AlignRegionToPageBoundary r) = map_ok) := by
  constructor
  · intro h
    simp only [CheckMemRange, AlignRegionToPageBoundary, largepage_align_up,
      largepage_align_down, HPS, UINTPTR_MOD] at h ⊢
    split_ifs at h with h1 h2
    all_goals omega
  · intro h2
    simp only [AlignMoveRegionToLargePages] at h2
    split_ifs at h2 with hs
    exact not_not.mp hs

/-- C8, witness: the invariant instantiated on the already-aligned
range `[2 * HPS, 5 * HPS)`. -/
theorem C8_validated_range_invariant_witness :
    (AlignRegionToPageBoundary { rfrom := 2 * HPS, rto := 5 * HPS }).rfrom % HPS = 0 ∧
    (AlignRegionToPageBoundary { rfrom := 2 * HPS, rto := 5 * HPS }).rto % HPS = 0 ∧
    (AlignRegionToPageBoundary { rfrom := 2 * HPS, rto := 5 * HPS }).rfrom <
      (AlignRegionToPageBoundary { rfrom := 2 * HPS, rto := 5 * HPS }).rto ∧
    HPS ≤ (AlignRegionToPageBoundary { rfrom := 2 * HPS, rto := 5 * HPS }).rto -
      (AlignRegionToPageBoundary { rfrom := 2 * HPS, rto := 5 * HPS }).rfrom :=
  (C8_validated_range_invariant (fun _ => map_ok)
    { rfrom := 2 * HPS, rto := 5 * HPS }).1 (by decide)

/-- C9: when the four remap steps succeed and only the final release of
the scratch region fails, the function returns
`map_see_errno_munmap_nmem_failed` even though the remap is fully
applied: the target range holds the original bytes, read+execute, at
the original address — so a non-ok result does not imply the region was
left un-remapped. -/
theorem C9_scratch_release_failure_after_success (orig : List Nat) (env : SyscallEnv)
    (h1 : env.mmap_nmem_ok = true) (h2 : env.mmap_tmem_ok = true)
    (h3 : env.madvise_ok = true) (h4 : env.mprotect_ok = true)
    (h5 : env.munmap_nmem_ok = false) :
    (MoveRegionToLargePages orig env).1 = map_see_errno_munmap_nmem_failed ∧
    (MoveRegionToLargePages orig env).1 ≠ map_ok ∧
    (MoveRegionToLargePages orig env).2.targetMapped = true ∧
    (MoveRegionToLargePages orig env).2.targetBytes = orig ∧
    (MoveRegionToLargePages orig env).2.targetProt = prot_rx := by
  obtain ⟨a, b, c, d, e, f⟩ := env
  cases a <;> cases b <;> cases c <;> cases d <;> cases e <;> cases f <;>
    simp_all [MoveRegionToLargePages, rollbackBoth, initialState, prot_rx, prot_rwx]

/-- C9, witness: the theorem at a run in which everything succeeds
except the final scratch unmap. -/
theorem C9_scratch_release_failure_witness :
    (MoveRegionToLargePages [7, 8]
      { mmap_nmem_ok := true, mmap_tmem_ok := true, madvise_ok := true,
        mprotect_ok := true, munmap_tmem_ok := true, munmap_nmem_ok := false }).1 =
      map_see_errno_munmap_nmem_failed ∧
    (MoveRegionToLargePages [7, 8]
      { mmap_nmem_ok := true, mmap_tmem_ok := true, madvise_ok := true,
        mprotect_ok := true, munmap_tmem_ok := true, munmap_nmem_ok := false }).1 ≠ map_ok ∧
    (MoveRegionToLargePages [7, 8]
      { mmap_nmem_ok := true, mmap_tmem_ok := true, madvise_ok := true,
        mprotect_ok := true, munmap_tmem_ok := true, munmap_nmem_ok := false }).2.targetMapped = true ∧
    (MoveRegionToLargePages [7, 8]
      { mmap_nmem_ok := true, mmap_tmem_ok := true, madvise_ok := true,
        mprotect_ok := true, munmap_tmem_ok := true, munmap_nmem_ok := false }).2.targetBytes = [7, 8] ∧
    (MoveRegionToLargePages [7, 8]
      { mmap_nmem_ok := true, mmap_tmem_ok := true, madvise_ok := true,
        mprotect_ok := true, munmap_tmem_ok := true, munmap_nmem_ok := false }).2.targetProt = prot_rx :=
  C9_scratch_release_failure_after_success [7, 8]
    { mmap_nmem_ok := true, mmap_tmem_ok := true, madvise_ok := true,
      mprotect_ok := true, munmap_tmem_ok := true, munmap_nmem_ok := false }
    (by decide) (by decide) (by decide) (by decide) (by decide)

/-- C10: when the capability file holds exactly three tokens and none
of them is the expected bracket-marked mode for its position, the probe
returns `map_ok` with enabled=false rather than a malformed-file
error. -/
theorem C10_unrecognized_tokens_ok_false (s t1 t2 t3 : String)
    (h : fscanfTokens s = [t1, t2, t3])
    (h1 : t1 ≠ "[always]") (h2 : t2 ≠ "[madvise]") (h3 : t3 ≠ "[never]") :
    IsLargePagesEnabled (some s) = (map_ok, false) := by
  simp [IsLargePagesEnabled, IsTransparentHugePagesEnabled, h, h1, h2, h3]

/-- C10, witness: three garbage tokens yield `(map_ok, false)`. -/
theorem C10_unrecognized_tokens_witness :
    IsLargePagesEnabled (some "foo bar baz") = (map_ok, false) :=
  C10_unrecognized_tokens_ok_false "foo bar baz" "foo" "bar" "baz"
    (by decide) (by decide) (by decide) (by decide)
